import Mathlib

/-!
Verification of the overseer firewall kernel against its specification.

This file gives a shallow embedding of the decision/orchestration kernel of
the repository (FirewallEngine with PolicyStore and Sandbox from
src/overseer/kernel/firewall_engine.py, PerceptionBus from
src/overseer/kernel/perception_bus.py, HumanGate from
src/retro_cogos/kernel/human_gate.py, and the checkpoint save/restore pair
from src/overseer/services/execution_service.py), and proves or refutes the
frozen behavioural claims about it.

Machine reals (Python floats) are embedded as rationals; Python dicts are
embedded as association lists; fallible library calls (regex match,
json.loads, pydantic validation) are embedded as explicit outcome values the
theorems quantify over.
-/

/-- Permission levels of src/retro_cogos/core/enums.py ToolPermission
(auto, notify, confirm, approve). -/
inductive ToolPermission where
  | auto
  | notify
  | confirm
  | approve
deriving DecidableEq

/-- Strictness ordering PolicyStore._PERMISSION_ORDER: auto 0, notify 1,
confirm 2, approve 3. -/
def permissionOrder : ToolPermission → Nat
  | ToolPermission.auto => 0
  | ToolPermission.notify => 1
  | ToolPermission.confirm => 2
  | ToolPermission.approve => 3

/-- Python `ToolPermission(level)`: succeeds exactly on the four enum value
strings, otherwise raises ValueError (embedded as `none`). -/
def toolPermissionOfString (s : String) : Option ToolPermission :=
  if s = "auto" then some ToolPermission.auto
  else if s = "notify" then some ToolPermission.notify
  else if s = "confirm" then some ToolPermission.confirm
  else if s = "approve" then some ToolPermission.approve
  else none

/-- PolicyStore state: `_admin_permissions` (dict from config, embedded as an
association list), `_user_overrides` (runtime adaptive layer), and the set of
MCP-discovered tool names. -/
structure PolicyStore where
  admin : List (String × String)
  userOverrides : List (String × String)
  mcpTools : List String
deriving DecidableEq

/-- PolicyStore._resolve_admin: explicit admin entry wins; otherwise MCP tools
fall back to the "mcp_default" entry (default "auto") and all other tools to
the "default" entry (default "confirm"); an invalid level string degrades to
CONFIRM via the except ValueError branch. -/
def resolve_admin (ps : PolicyStore) (tool : String) : ToolPermission :=
  let level :=
    match ps.admin.lookup tool with
    | some l => l
    | none =>
        if tool ∈ ps.mcpTools then (ps.admin.lookup "mcp_default").getD "auto"
        else (ps.admin.lookup "default").getD "confirm"
  (toolPermissionOfString level).getD ToolPermission.confirm

/-- PolicyStore._resolve_user: absent override gives None; an invalid level
string also gives None via the except ValueError branch. -/
def resolve_user (ps : PolicyStore) (tool : String) : Option ToolPermission :=
  match ps.userOverrides.lookup tool with
  | some l => toolPermissionOfString l
  | none => none

/-- PolicyStore.get_permission: effective permission, the user override wins
only when it is strictly higher in the strictness order. -/
def get_permission (ps : PolicyStore) (tool : String) : ToolPermission :=
  let adminLevel := resolve_admin ps tool
  match resolve_user ps tool with
  | some userLevel =>
      if permissionOrder userLevel > permissionOrder adminLevel then userLevel
      else adminLevel
  | none => adminLevel

/-- PolicyStore.override_user_permission: dict assignment on the user layer,
embedded as cons onto the association list (lookup sees the newest entry). -/
def override_user_permission (ps : PolicyStore) (tool level : String) : PolicyStore :=
  { ps with userOverrides := (tool, level) :: ps.userOverrides }

/-- Value of a tool-call argument. Python distinguishes only
`isinstance(value, str)`; every non-string JSON value is embedded opaquely by
its canonical serialization. -/
inductive ArgVal where
  | str (s : String)
  | other (canon : String)
deriving DecidableEq

/-- ToolCall of src/overseer/core/protocols.py: tool name plus argument dict
(embedded as an association list with distinct keys). -/
structure ToolCall where
  tool : String
  args : List (String × ArgVal)
deriving DecidableEq

/-- HelpRequest of src/overseer/core/protocols.py. -/
structure HelpRequest where
  missingInformation : List String
  attemptedApproaches : List String
  specificQuestion : String
  suggestedHumanActions : List String
deriving DecidableEq

/-- LLMDecision of src/overseer/core/protocols.py. `nextAction` is embedded as
an optional (title, description) pair; `reflection` and `plan_revision` are
not consulted by any verified operation and are omitted. -/
structure LLMDecision where
  nextAction : Option (String × String) := none
  toolCalls : List ToolCall := []
  humanRequired : Bool := false
  humanReason : Option String := none
  options : List String := []
  taskComplete : Bool := false
  confidence : ℚ := mkRat 1 2
  helpRequest : Option HelpRequest := none
  subtaskComplete : Bool := false
deriving DecidableEq

/-- Keys Sandbox._PATH_KEYS treats as path-like. -/
def pathKeys : List String :=
  ["path", "file_path", "filepath", "filename",
   "outputPath", "output_path", "savePath", "save_path"]

/-- Split a character list at every '/', keeping empty components. -/
def splitSlash : List Char → List Char → List (List Char)
  | [], acc => [acc.reverse]
  | c :: rest, acc =>
      if c = '/' then acc.reverse :: splitSlash rest []
      else splitSlash rest (c :: acc)

/-- Final path component in the sense of Python pathlib `Path(s).name` on
POSIX: split on "/", drop empty components and ".", and take the last
remaining component ("" when none is left). -/
def pathName (s : String) : String :=
  let comps :=
    ((splitSlash s.data []).map String.mk).filter (fun c => c ≠ "" && c ≠ ".")
  match comps.getLast? with
  | some c => c
  | none => ""

/-- Python `str(Path(out) / name)` for a normalized directory `out` and a
single component `name` (joining with the empty component is the identity). -/
def pathJoin (out name : String) : String :=
  if name = "" then out else out ++ "/" ++ name

/-- Sandbox.rewrite_path_args: every argument whose key is path-like and whose
value is a string is rewritten to `output_dir / basename`; every other
argument is kept. The dict update loop of the source is embedded as the
equivalent pointwise map over the entries (keys of a dict are distinct and the
updates are independent); the mkdir side effect is outside the embedding. -/
def rewrite_path_args (outputDir : String) (args : List (String × ArgVal)) :
    List (String × ArgVal) :=
  args.map fun kv =>
    if kv.1 ∈ pathKeys then
      match kv.2 with
      | ArgVal.str s => (kv.1, ArgVal.str (pathJoin outputDir (pathName s)))
      | v => (kv.1, v)
    else kv

/-- FirewallEngine.sandbox_args: rewrite a tool call through the sandbox. -/
def sandbox_args (outputDir : String) (tc : ToolCall) : ToolCall :=
  { tool := tc.tool, args := rewrite_path_args outputDir tc.args }

/-- Outcome of one extraction stage of FirewallEngine.parse_decision on an
input string: `noBlock` when the regex finds no block, `parseFailed` when a
block was found but json.loads or _normalize_decision raised (both stages
catch every exception), `ok d` when extraction and normalisation produced the
decision `d`. -/
inductive ParsedBlock where
  | noBlock
  | parseFailed
  | ok (d : LLMDecision)
deriving DecidableEq

/-- Whether an extraction stage produced a decision. -/
def ParsedBlock.isOk : ParsedBlock → Bool
  | ParsedBlock.ok _ => true
  | _ => false

/-- Fail-safe decision built by the last-resort branch of
FirewallEngine.parse_decision. -/
def failSafeDecision : LLMDecision :=
  { humanRequired := true,
    humanReason := some "无法确定下一步操作，请查看回复内容并给予指引。",
    options := ["继续", "终止"] }

/-- FirewallEngine.parse_decision, embedded over the outcomes of its two
extraction stages on the input string: first the fenced decision block
(regex plus json.loads plus _normalize_decision inside try/except), then the
fallback JSON object containing "task_complete" (same try/except), and
finally the fail-safe default. No path re-raises. -/
def parse_decision (block fallback : ParsedBlock) : LLMDecision :=
  match block with
  | ParsedBlock.ok d => d
  | _ =>
      match fallback with
      | ParsedBlock.ok d => d
      | _ => failSafeDecision

/-- PerceptionStats of src/overseer/kernel/perception_bus.py. The defaultdict
counters are embedded as total functions (default 0 / empty list). -/
structure PerceptionStats where
  approvalCounts : String → Nat
  rejectCounts : String → Nat
  consecutiveRejects : String → Nat
  approvalTimes : String → List ℚ
  confidenceWindow : List ℚ
  stagnationCount : Nat

/-- Fresh PerceptionStats (the dataclass defaults). -/
def emptyStats : PerceptionStats :=
  { approvalCounts := fun _ => 0,
    rejectCounts := fun _ => 0,
    consecutiveRejects := fun _ => 0,
    approvalTimes := fun _ => [],
    confidenceWindow := [],
    stagnationCount := 0 }

/-- PerceptionBus.record_approval: approval increments the approve counter and
zeroes the consecutive-reject counter; rejection increments both reject
counters; the elapsed time is always appended. -/
def record_approval (st : PerceptionStats) (tool : String) (approved : Bool)
    (elapsed : ℚ) : PerceptionStats :=
  let st1 :=
    if approved then
      { st with
        approvalCounts := fun t => if t = tool then st.approvalCounts t + 1 else st.approvalCounts t,
        consecutiveRejects := fun t => if t = tool then 0 else st.consecutiveRejects t }
    else
      { st with
        rejectCounts := fun t => if t = tool then st.rejectCounts t + 1 else st.rejectCounts t,
        consecutiveRejects := fun t => if t = tool then st.consecutiveRejects t + 1 else st.consecutiveRejects t }
  { st1 with
    approvalTimes := fun t => if t = tool then st1.approvalTimes t ++ [elapsed] else st1.approvalTimes t }

/-- The `confidence_window[-10:]` trim of PerceptionBus.record_confidence. -/
def trimWindow (w : List ℚ) : List ℚ :=
  if w.length > 10 then w.drop (w.length - 10) else w

/-- PerceptionBus.record_confidence: append, then keep the last 10 values. -/
def record_confidence (st : PerceptionStats) (c : ℚ) : PerceptionStats :=
  { st with confidenceWindow := trimWindow (st.confidenceWindow ++ [c]) }

/-- PerceptionBus state: the statistics plus the `_last_tool_outputs` dict used
for diff detection (embedded as an association list). -/
structure PerceptionBus where
  stats : PerceptionStats
  lastToolOutputs : List (String × String)

/-- Fresh PerceptionBus. -/
def emptyBus : PerceptionBus :=
  { stats := emptyStats, lastToolOutputs := [] }

/-- Action field of a FirewallVerdict. -/
inductive FWAction where
  | allow
  | needsHuman
  | block
deriving DecidableEq

/-- FirewallVerdict of src/overseer/kernel/firewall_engine.py. -/
structure FirewallVerdict where
  action : FWAction
  reason : String := ""
  needsPreview : Bool := false
  decision : Option LLMDecision := none
deriving DecidableEq

/-- Loop-detection state of FirewallEngine (_last_tool_sig, _repeat_count,
_last_tool_names, _name_repeat_count). The initial sentinel "" of the
signature strings, which no json.dumps output ever equals, is embedded as
`none`; `some x` stands for the canonical dump of `x`. -/
structure LoopState where
  lastToolSig : Option (List (String × List (String × ArgVal)))
  repeatCount : Nat
  lastToolNames : Option (List String)
  nameRepeatCount : Nat
deriving DecidableEq

/-- Loop-detection state at engine construction. -/
def initialLoopState : LoopState :=
  { lastToolSig := none, repeatCount := 0, lastToolNames := none, nameRepeatCount := 0 }

/-- Insertion step for sorting argument entries by key (Python sort_keys uses
code-point string order, which Lean String order matches). -/
def insertArgEntry (x : String × ArgVal) :
    List (String × ArgVal) → List (String × ArgVal)
  | [] => [x]
  | y :: ys => if x.1 ≤ y.1 then x :: y :: ys else y :: insertArgEntry x ys

/-- Sort an argument dict by key, the canonical order of
`json.dumps(..., sort_keys=True)`. -/
def sortArgsByKey (args : List (String × ArgVal)) : List (String × ArgVal) :=
  args.foldr insertArgEntry []

/-- Insertion step for sorting a list of strings. -/
def insertString (x : String) : List String → List String
  | [] => [x]
  | y :: ys => if x ≤ y then x :: y :: ys else y :: insertString x ys

/-- Python `sorted` on a list of strings. -/
def sortStrings (l : List String) : List String :=
  l.foldr insertString []

/-- Canonical signature of the proposed tool calls, the embedding of
`json.dumps([{"t": tc.tool, "a": tc.args} for tc in ...], sort_keys=True)`:
the call order is kept and each argument dict is keyed in sorted order, so
two dumps are equal exactly when these values are equal. -/
def toolSig (tcs : List ToolCall) : List (String × List (String × ArgVal)) :=
  tcs.map fun tc => (tc.tool, sortArgsByKey tc.args)

/-- Canonical name signature, the embedding of
`json.dumps(sorted(tc.tool for tc in ...))`. -/
def nameSig (tcs : List ToolCall) : List String :=
  sortStrings (tcs.map ToolCall.tool)

/-- Addition on the embedded rationals, written on the normalised
numerator/denominator representation so that the kernel can evaluate it on
closed scenario values; equal to the standard addition (qAdd_eq_add below). -/
def qAdd (a b : ℚ) : ℚ :=
  mkRat (a.num * b.den + b.num * a.den) (a.den * b.den)

/-- Multiplication on the embedded rationals in the same reducible style;
equal to the standard multiplication (qMul_eq_mul below). -/
def qMul (a b : ℚ) : ℚ :=
  mkRat (a.num * b.num) (a.den * b.den)

/-- Division on the embedded rationals in the same reducible style; equal to
the standard division (qDiv_eq_div below). -/
def qDiv (a b : ℚ) : ℚ :=
  if 0 ≤ b.num then mkRat (a.num * b.den) (a.den * b.num.toNat)
  else mkRat (-(a.num * b.den)) (a.den * (-b.num).toNat)

/-- Python sum() of a list of embedded rationals (left fold from zero);
equal to List.sum (qSum_eq_sum below). -/
def qSum (l : List ℚ) : ℚ :=
  l.foldl qAdd (mkRat 0 1)

/-- Average of the confidence window with the 0.5 default on an empty window,
as computed in FirewallEngine._check_loop. -/
def avgOrHalf (w : List ℚ) : ℚ :=
  if w.isEmpty then mkRat 1 2 else qDiv (qSum w) (mkRat w.length 1)

/-- Decision mutation applied by FirewallEngine._check_loop when a loop is
detected: clear the tool calls and force a human decision. -/
def loopMutate (d : LLMDecision) : LLMDecision :=
  { d with toolCalls := [],
           humanRequired := true,
           humanReason := some "检测到重复工具调用，工具可能未返回有效数据。请选择下一步操作。",
           options := ["换一种方式继续", "终止"] }

/-- FirewallEngine._check_loop: update the exact-signature and tool-name
repeat counters, compute the confidence-dependent thresholds (2/3 when the
window average is at least 0.5, else 1/2), and on a trip return a needs_human
verdict carrying the mutated decision, leaving the counters as incremented. -/
def check_loop (window : List ℚ) (st : LoopState) (d : LLMDecision) :
    Option FirewallVerdict × LoopState :=
  let sig := toolSig d.toolCalls
  let rc := if st.lastToolSig = some sig then st.repeatCount + 1 else 0
  let names := nameSig d.toolCalls
  let nc := if st.lastToolNames = some names then st.nameRepeatCount + 1 else 0
  let st2 : LoopState :=
    { lastToolSig := some sig, repeatCount := rc,
      lastToolNames := some names, nameRepeatCount := nc }
  let avg := avgOrHalf window
  let exactThreshold : Nat := if avg ≥ mkRat 1 2 then 2 else 1
  let nameThreshold : Nat := if avg ≥ mkRat 1 2 then 3 else 2
  (if rc ≥ exactThreshold ∨ nc ≥ nameThreshold then
    some { action := FWAction.needsHuman,
           reason := "Loop detected ("
             ++ (if rc ≥ exactThreshold then "exact args" else "same tool") ++ ")",
           decision := some (loopMutate d) }
   else none,
   st2)

/-- Fixed-point decimal rendering with two digits used for the averaged
confidence, modelling the `:.2f` format of the source for the nonnegative
averages that occur (half-up rounding on the embedded rational). -/
def fmt2 (q : ℚ) : String :=
  let n : Int := ⌊qAdd (qMul q (mkRat 100 1)) (mkRat 1 2)⌋
  let ip := n / 100
  let fp := n % 100
  toString ip ++ "." ++ (if fp < 10 then "0" else "") ++ toString fp

/-- Human-reason text of the confidence circuit breaker (the f-string of
evaluate layer 2 with the window size 3 of the engine constants). -/
def lowConfReason (avg : ℚ) : String :=
  "系统检测到连续 3 步置信度偏低（平均 " ++ fmt2 avg ++ "），当前策略可能无效。请决定下一步方向。"

/-- Human-reason text synthesised from a help request in evaluate layer 1:
the nonempty structured fields joined by newlines, with a fixed fallback. -/
def helpReason (hr : HelpRequest) : String :=
  let parts :=
    (if hr.specificQuestion ≠ "" then ["问题：" ++ hr.specificQuestion] else []) ++
    (if hr.attemptedApproaches ≠ [] then
      ["已尝试：" ++ String.intercalate ", " hr.attemptedApproaches] else []) ++
    (if hr.missingInformation ≠ [] then
      ["缺少信息：" ++ String.intercalate ", " hr.missingInformation] else [])
  if parts = [] then "需要帮助以继续推进。" else String.intercalate "\n" parts

/-- Layer 1 of FirewallEngine.evaluate: an explicit help request on a decision
that is not already human-required forces human involvement and synthesises
the question and options from the structured help fields. -/
def helpLayer (d : LLMDecision) : LLMDecision :=
  match d.helpRequest with
  | some hr =>
      if d.humanRequired then d
      else
        { d with humanRequired := true,
                 humanReason := some (helpReason hr),
                 options := hr.suggestedHumanActions ++ ["跳过此步骤", "终止"] }
  | none => d

/-- Layer 2 of FirewallEngine.evaluate, the confidence circuit breaker: when
the window holds at least 3 scores, the last 3 are all below the 0.3
threshold, and the decision is neither human-required nor task-complete,
force a human decision with the averaged-confidence explanation. -/
def confidenceLayer (window : List ℚ) (d : LLMDecision) : LLMDecision :=
  let recent := window.drop (window.length - 3)
  if window.length ≥ 3 ∧ recent.all (fun c => decide (c < mkRat 3 10)) ∧
      d.humanRequired = false ∧ d.taskComplete = false then
    { d with humanRequired := true,
             humanReason := some (lowConfReason (qDiv (qSum recent) (mkRat 3 1))),
             options := ["换一种方式继续", "提供更多信息", "终止"] }
  else d

/-- Python `decision.human_reason or "需要人类决策"` (None and "" are falsy). -/
def humanReasonOr (d : LLMDecision) : String :=
  match d.humanReason with
  | some r => if r = "" then "需要人类决策" else r
  | none => "需要人类决策"

/-- Final verdict of FirewallEngine.evaluate once no loop verdict was
returned: needs_human when the (possibly mutated) decision requires a human,
otherwise allow. -/
def verdictFor (d : LLMDecision) : FirewallVerdict :=
  if d.humanRequired then
    { action := FWAction.needsHuman, reason := humanReasonOr d, decision := some d }
  else
    { action := FWAction.allow, decision := some d }

/-- Result of FirewallEngine.evaluate: the verdict, the updated
loop-detection state, and the perception statistics after the call. The
Python method only reads `self._perception.get_stats()` and never writes the
perception state, which the embedding records by returning the statistics it
was given. -/
structure EvalResult where
  verdict : FirewallVerdict
  loop : LoopState
  statsAfter : PerceptionStats

/-- FirewallEngine.evaluate: help-request escalation, confidence circuit
breaker, then loop detection on a decision that proposes tool calls; layers 4
and 5 of the pipeline are deferred and add no branch here. -/
def evaluate (stats : PerceptionStats) (st : LoopState) (d : LLMDecision) :
    EvalResult :=
  let d2 := confidenceLayer stats.confidenceWindow (helpLayer d)
  if d2.toolCalls.isEmpty then
    { verdict := verdictFor d2, loop := st, statsAfter := stats }
  else
    match check_loop stats.confidenceWindow st d2 with
    | (some v, st2) => { verdict := v, loop := st2, statsAfter := stats }
    | (none, st2) => { verdict := verdictFor d2, loop := st2, statsAfter := stats }

/-- FirewallEngine.should_escalate: at 3 or more consecutive rejections of the
tool, override the user policy layer to "approve" and return "approve"; the
perception statistics are only read, never written, which the embedding
records by returning them unchanged. -/
def should_escalate (stats : PerceptionStats) (ps : PolicyStore) (tool : String) :
    Option String × PolicyStore × PerceptionStats :=
  if stats.consecutiveRejects tool ≥ 3 then
    (some "approve", override_user_permission ps tool "approve", stats)
  else (none, ps, stats)

/-- ASCII lower-casing of one character, the fragment of Python `str.lower`
relevant to the keyword sets (ASCII keywords and Chinese characters, which
lower-casing leaves unchanged). -/
def asciiLower (c : Char) : Char :=
  if 'A' ≤ c ∧ c ≤ 'Z' then Char.ofNat (c.toNat + 32) else c

/-- Python `str.lower` on the alphabet the gate handles. -/
def strLower (s : String) : String :=
  String.mk (s.data.map asciiLower)

/-- Whitespace in the sense of Python `str.strip` on the inputs the gate
handles. -/
def isWsChar (c : Char) : Bool :=
  c = ' ' ∨ c = '\t' ∨ c = '\n' ∨ c = '\r'

/-- Python `str.strip`: drop leading and trailing whitespace. -/
def strTrim (s : String) : String :=
  String.mk (((s.data.dropWhile isWsChar).reverse.dropWhile isWsChar).reverse)

/-- Whether `needle` occurs as a contiguous sublist of `hay`. -/
def listInfix (needle : List Char) : List Char → Bool
  | [] => needle.isEmpty
  | c :: t => needle.isPrefixOf (c :: t) || listInfix needle t

/-- Python `needle in haystack` on strings. -/
def strContains (haystack needle : String) : Bool :=
  listInfix needle.data haystack.data

/-- The _ABORT_KEYWORDS frozenset of src/retro_cogos/kernel/human_gate.py. -/
def abortKeywords : List String :=
  ["abort", "stop", "quit", "exit", "end", "cancel", "finish",
   "done", "enough", "terminate",
   "终止", "停止", "取消", "结束", "退出", "关闭",
   "不做了", "不用了", "不要了", "不需要了",
   "算了", "放弃", "中止", "停下", "别做了"]

/-- The _CONFIRM_COMPLETE_KEYWORDS frozenset. -/
def confirmCompleteKeywords : List String :=
  ["确认完成", "确认", "完成", "可以了", "没问题",
   "confirm", "done", "lgtm"]

/-- The _IMPLICIT_STOP_CUES tuple. -/
def implicitStopCues : List String :=
  ["停", "不要", "别做了", "别继续", "算了",
   "不用了", "放弃", "结束", "不做了", "退出",
   "不需要", "关闭", "中止", "停下", "到此为止",
   "就这样", "可以了", "够了",
   "stop", "quit", "enough", "end", "done",
   "finish", "cancel", "exit", "terminate"]

/-- Intent enum of src/retro_cogos/kernel/human_gate.py. -/
inductive Intent where
  | approve
  | reject
  | abort
  | forceAbort
  | confirmComplete
  | implicitStop
  | freetext
deriving DecidableEq

/-- A human response dict {"decision": ..., "text": ...} (absent entries are
the empty string, matching `human.get(..., "")`). -/
structure HumanResp where
  decision : String
  text : String := ""
deriving DecidableEq

/-- HumanGate mutable state: the consecutive-stop counter. -/
structure HumanGateState where
  consecutiveStops : Nat
deriving DecidableEq

/-- HumanGate state at construction. -/
def initialGateState : HumanGateState := { consecutiveStops := 0 }

/-- The `.lower().strip()` normalisation applied to decision and text values
in HumanGate.parse_intent. -/
def normVal (s : String) : String := strTrim (strLower s)

/-- The abort test of HumanGate.parse_intent: the normalised decision value is
an abort keyword, or the decision is "feedback" and the normalised text is. -/
def isAbortResp (h : HumanResp) : Bool :=
  let dv := normVal h.decision
  let tv := normVal h.text
  abortKeywords.contains dv || (dv = "feedback" && abortKeywords.contains tv)

/-- The task-completion confirmation test of HumanGate.parse_intent. -/
def isConfirmResp (h : HumanResp) : Bool :=
  let dv := normVal h.decision
  let tv := normVal h.text
  confirmCompleteKeywords.contains dv ||
    (dv = "feedback" && confirmCompleteKeywords.contains tv)

/-- HumanGate.parse_intent: abort detection first (incrementing the
consecutive-stop counter and resolving to force_abort from the second
consecutive abort on), any non-abort response resets the counter, then
completion confirmation, then implicit stop cues as substrings of the
lower-cased raw text, else freetext. -/
def parse_intent (st : HumanGateState) (h : HumanResp) : Intent × HumanGateState :=
  if isAbortResp h then
    let n := st.consecutiveStops + 1
    (if n ≥ 2 then Intent.forceAbort else Intent.abort, { consecutiveStops := n })
  else
    (if isConfirmResp h then Intent.confirmComplete
     else if implicitStopCues.any (fun kw => strContains (strLower h.text) kw) then
       Intent.implicitStop
     else Intent.freetext,
     { consecutiveStops := 0 })

/-- A pending HITL request as stored by _save_checkpoint (reason, options). -/
structure PendingHitl where
  reason : String
  options : List String
deriving DecidableEq

/-- A pending tool-confirmation request as stored by _save_checkpoint
(tool_name, tool_args). -/
structure PendingToolConfirm where
  toolName : String
  toolArgs : List (String × ArgVal)
deriving DecidableEq

/-- The `_checkpoint` blob written by ExecutionService._save_checkpoint. The
`human_decision` key is absent when the checkpoint is written (the TUI may add
it later while the task is paused), embedded as an optional (choice, text)
pair that _save_checkpoint leaves `none`. -/
structure Checkpoint where
  lastToolSig : Option (List (String × List (String × ArgVal)))
  repeatCount : Nat
  lastToolNames : Option (List String)
  nameRepeatCount : Nat
  confidenceHistory : List ℚ
  elapsedSecondsAtPause : ℚ
  consecutiveStops : Nat
  lastToolOutputs : List (String × String)
  announcedSubtaskId : Option Int
  pendingHitl : Option PendingHitl
  pendingToolConfirm : Option PendingToolConfirm
  pausedAtStep : Nat
  pauseReason : String
  wrapUpInjected : Bool
  humanDecision : Option (String × String)
deriving DecidableEq

/-- ExecutionService._save_checkpoint: serialise the firewall loop state
(FirewallEngine.get_loop_state), the confidence window, the HumanGate state
(HumanGate.get_state), the tool-output cache, and the orchestration values
passed by the caller. -/
def save_checkpoint (loop : LoopState) (bus : PerceptionBus)
    (gate : HumanGateState) (elapsed : ℚ) (announced : Option Int)
    (pendingHitl : Option PendingHitl)
    (pendingToolConfirm : Option PendingToolConfirm) (pausedAtStep : Nat)
    (pauseReason : String) (wrapUpInjected : Bool) : Checkpoint :=
  { lastToolSig := loop.lastToolSig,
    repeatCount := loop.repeatCount,
    lastToolNames := loop.lastToolNames,
    nameRepeatCount := loop.nameRepeatCount,
    confidenceHistory := bus.stats.confidenceWindow,
    elapsedSecondsAtPause := elapsed,
    consecutiveStops := gate.consecutiveStops,
    lastToolOutputs := bus.lastToolOutputs,
    announcedSubtaskId := announced,
    pendingHitl := pendingHitl,
    pendingToolConfirm := pendingToolConfirm,
    pausedAtStep := pausedAtStep,
    pauseReason := pauseReason,
    wrapUpInjected := wrapUpInjected,
    humanDecision := none }

/-- The dict returned by ExecutionService._restore_checkpoint to the resume
flow. It carries no pending_hitl or pending_tool_confirm entry. -/
structure RestoredInfo where
  elapsedSecondsAtPause : ℚ
  announcedSubtaskId : Option Int
  pauseReason : String
  humanDecision : Option (String × String)
  wrapUpInjected : Bool
deriving DecidableEq

/-- ExecutionService._restore_checkpoint applied to the service's current
kernel components: restore the firewall loop state
(FirewallEngine.restore_loop_state) and the HumanGate counter
(HumanGate.restore_state), replace the tool-output cache
(PerceptionBus.restore_tool_outputs), replay the saved confidence history
through PerceptionBus.record_confidence, and return the orchestration
values. -/
def restore_checkpoint (cp : Checkpoint) (bus : PerceptionBus) :
    LoopState × PerceptionBus × HumanGateState × RestoredInfo :=
  let loop : LoopState :=
    { lastToolSig := cp.lastToolSig, repeatCount := cp.repeatCount,
      lastToolNames := cp.lastToolNames, nameRepeatCount := cp.nameRepeatCount }
  let bus2 : PerceptionBus :=
    { stats := cp.confidenceHistory.foldl record_confidence bus.stats,
      lastToolOutputs := cp.lastToolOutputs }
  let gate : HumanGateState := { consecutiveStops := cp.consecutiveStops }
  (loop, bus2, gate,
   { elapsedSecondsAtPause := cp.elapsedSecondsAtPause,
     announcedSubtaskId := cp.announcedSubtaskId,
     pauseReason := cp.pauseReason,
     humanDecision := cp.humanDecision,
     wrapUpInjected := cp.wrapUpInjected })

/-- Loop-detection verdict of one evaluated step (first component of
FirewallEngine._check_loop). -/
def loopTrip (w : List ℚ) (st : LoopState) (d : LLMDecision) :
    Option FirewallVerdict :=
  (check_loop w st d).1

/-- Loop-detection state after one evaluated step (second component of
FirewallEngine._check_loop). -/
def loopStep (w : List ℚ) (st : LoopState) (d : LLMDecision) : LoopState :=
  (check_loop w st d).2

/-- A PolicyStore with an empty admin configuration, no user overrides and no
MCP tools. -/
def emptyPolicy : PolicyStore :=
  { admin := [], userOverrides := [], mcpTools := [] }

/-- Perception statistics after the human rejects the tool `delete_file`
three times consecutively (three record_approval calls with approved=False),
the concrete scenario of the auto-escalation claim. -/
def escalateScenarioStats : PerceptionStats :=
  record_approval
    (record_approval (record_approval emptyStats "delete_file" false 1)
      "delete_file" false 1)
    "delete_file" false 1

/-- A concrete checkpoint written while a HITL request is pending
(_save_checkpoint called from the hitl_wait suspension point). -/
def cexCheckpoint : Checkpoint :=
  save_checkpoint initialLoopState emptyBus initialGateState (mkRat 5 1) none
    (some { reason := "需要确认下一步操作", options := ["继续", "终止"] }) none
    7 "hitl_wait" false

/-- The checkpoint written by the next _save_checkpoint after restoring
`cexCheckpoint` into a fresh service, passing back exactly the values that
_restore_checkpoint returned. The returned dict carries no pending_hitl or
pending_tool_confirm entry, so those parameters take their None defaults. -/
def cexResaved : Checkpoint :=
  save_checkpoint (restore_checkpoint cexCheckpoint emptyBus).1
    (restore_checkpoint cexCheckpoint emptyBus).2.1
    (restore_checkpoint cexCheckpoint emptyBus).2.2.1
    (restore_checkpoint cexCheckpoint emptyBus).2.2.2.elapsedSecondsAtPause
    (restore_checkpoint cexCheckpoint emptyBus).2.2.2.announcedSubtaskId
    none none 7
    (restore_checkpoint cexCheckpoint emptyBus).2.2.2.pauseReason
    (restore_checkpoint cexCheckpoint emptyBus).2.2.2.wrapUpInjected

/-- A concrete decision proposing one file_read tool call, repeated verbatim
in the exact-repeat loop scenario. -/
def loopexD : LLMDecision :=
  { toolCalls := [{ tool := "file_read", args := [("path", ArgVal.str "a.txt")] }] }

/-- A concrete decision proposing a file_read call whose single argument is
the given string: same tool-name set, different exact signature for different
strings. -/
def loopexArg (s : String) : LLMDecision :=
  { toolCalls := [{ tool := "file_read", args := [("path", ArgVal.str s)] }] }

/-- Concrete loop-detection state used to exercise the checkpoint
round-trip. -/
def rtLoop : LoopState :=
  { lastToolSig := some [("file_write", [("path", ArgVal.str "a")])],
    repeatCount := 2,
    lastToolNames := some ["file_write"],
    nameRepeatCount := 1 }

/-- Concrete perception-bus state used to exercise the checkpoint
round-trip. -/
def rtBus : PerceptionBus :=
  { stats := { emptyStats with confidenceWindow := [mkRat 1 2, mkRat 4 5] },
    lastToolOutputs := [("file_read", "data")] }

/-- Concrete human-gate state used to exercise the checkpoint round-trip. -/
def rtGate : HumanGateState := { consecutiveStops := 1 }

/-- Perception statistics after recording the three consecutive confidence
scores 0.2, 0.25, 0.1, the concrete scenario of the circuit-breaker claim. -/
def cexBreakerStats : PerceptionStats :=
  record_confidence
    (record_confidence (record_confidence emptyStats (mkRat 1 5)) (mkRat 1 4))
    (mkRat 1 10)

/-- C1: for every input string (embedded by the outcomes of the two
extraction stages), parse_decision returns a Decision — it is total and every
failure of a stage is caught — and on malformed input (neither the fenced
decision block nor the fallback task_complete JSON object parses) the result
is the fail-safe decision: human_required=true with the fixed clarification
prompt and the fixed options. -/
theorem parse_decision_fail_safe (b f : ParsedBlock)
    (hb : b.isOk = false) (hf : f.isOk = false) :
    parse_decision b f = failSafeDecision ∧
    (parse_decision b f).humanRequired = true ∧
    (parse_decision b f).humanReason =
      some "无法确定下一步操作，请查看回复内容并给予指引。" ∧
    (parse_decision b f).options = ["继续", "终止"] := by
  cases b <;> cases f <;>
    simp_all [parse_decision, ParsedBlock.isOk, failSafeDecision]

/-- Witness for the C1 theorem at a concrete malformed input: the decision
block regex does not match and the fallback JSON parse fails. -/
theorem parse_decision_fail_safe_witness :
    ParsedBlock.isOk ParsedBlock.noBlock = false ∧
    ParsedBlock.isOk ParsedBlock.parseFailed = false ∧
    (parse_decision ParsedBlock.noBlock ParsedBlock.parseFailed = failSafeDecision ∧
     (parse_decision ParsedBlock.noBlock ParsedBlock.parseFailed).humanRequired = true ∧
     (parse_decision ParsedBlock.noBlock ParsedBlock.parseFailed).humanReason =
       some "无法确定下一步操作，请查看回复内容并给予指引。" ∧
     (parse_decision ParsedBlock.noBlock ParsedBlock.parseFailed).options = ["继续", "终止"]) :=
  ⟨rfl, rfl, parse_decision_fail_safe ParsedBlock.noBlock ParsedBlock.parseFailed rfl rfl⟩

/-- C2: for every tool name and every combination of the admin layer (with
its defaults) and the user override layer, the effective permission is the
stricter — the maximum under the auto < notify < confirm < approve order —
of the admin-resolved level and the user-resolved level (the latter defaults
to the admin level when no valid override exists). -/
theorem get_permission_is_stricter_of_layers (ps : PolicyStore) (tool : String) :
    permissionOrder (get_permission ps tool) =
      max (permissionOrder (resolve_admin ps tool))
        (permissionOrder ((resolve_user ps tool).getD (resolve_admin ps tool))) ∧
    (get_permission ps tool = resolve_admin ps tool ∨
     get_permission ps tool = (resolve_user ps tool).getD (resolve_admin ps tool)) := by
  unfold get_permission
  cases hu : resolve_user ps tool with
  | none => exact ⟨by simp, Or.inl rfl⟩
  | some u =>
      by_cases h : permissionOrder u > permissionOrder (resolve_admin ps tool)
      · refine ⟨?_, Or.inr ?_⟩ <;> simp [h]
        omega
      · refine ⟨?_, Or.inl ?_⟩ <;> simp [h]
        omega

/-- C3: rewrite_path_args rewrites every string-valued argument under a
path-like key to output_dir/basename (discarding any directory component),
leaves every argument under a non-path key unchanged, and in particular maps
path="../../etc/passwd" to output_dir/passwd. -/
theorem rewrite_path_args_spec (out : String) (args : List (String × ArgVal))
    (k : String) :
    (∀ v : ArgVal, (k, v) ∈ args → k ∉ pathKeys →
      (k, v) ∈ rewrite_path_args out args) ∧
    (∀ s : String, (k, ArgVal.str s) ∈ args → k ∈ pathKeys →
      (k, ArgVal.str (pathJoin out (pathName s))) ∈ rewrite_path_args out args) ∧
    rewrite_path_args out [("path", ArgVal.str "../../etc/passwd")] =
      [("path", ArgVal.str (out ++ "/" ++ "passwd"))] := by
  refine ⟨?_, ?_, ?_⟩
  · intro v hv hk
    unfold rewrite_path_args
    refine List.mem_map.mpr ⟨(k, v), hv, ?_⟩
    simp [hk]
  · intro s hs hk
    unfold rewrite_path_args
    refine List.mem_map.mpr ⟨(k, ArgVal.str s), hs, ?_⟩
    simp [hk]
  · rfl

/-- Witness for the C3 theorem on a concrete argument map holding a
path-traversal path and a non-path argument. -/
theorem rewrite_path_args_spec_witness :
    (("content", ArgVal.str "hello") ∈
        [("path", ArgVal.str "../../etc/passwd"), ("content", ArgVal.str "hello")] ∧
      "content" ∉ pathKeys ∧
      ("content", ArgVal.str "hello") ∈
        rewrite_path_args "output"
          [("path", ArgVal.str "../../etc/passwd"), ("content", ArgVal.str "hello")]) ∧
    (("path", ArgVal.str "../../etc/passwd") ∈
        [("path", ArgVal.str "../../etc/passwd"), ("content", ArgVal.str "hello")] ∧
      "path" ∈ pathKeys ∧
      ("path", ArgVal.str (pathJoin "output" (pathName "../../etc/passwd"))) ∈
        rewrite_path_args "output"
          [("path", ArgVal.str "../../etc/passwd"), ("content", ArgVal.str "hello")]) :=
  ⟨⟨by decide, by decide,
    (rewrite_path_args_spec "output"
      [("path", ArgVal.str "../../etc/passwd"), ("content", ArgVal.str "hello")]
      "content").1 (ArgVal.str "hello") (by decide) (by decide)⟩,
   ⟨by decide, by decide,
    (rewrite_path_args_spec "output"
      [("path", ArgVal.str "../../etc/passwd"), ("content", ArgVal.str "hello")]
      "path").2.1 "../../etc/passwd" (by decide) (by decide)⟩⟩

/-- C6: starting from a zero consecutive-stop counter, the first response
resolving to abort yields the graceful abort intent and increments the
counter to 1; a second abort with no intervening non-abort response yields
force_abort; and any non-abort response resets the counter to zero, so that
a later abort resolves to the graceful abort again. -/
theorem parse_intent_multistage_abort (s : HumanGateState)
    (h1 h2 h3 h4 : HumanResp) (hs : s.consecutiveStops = 0)
    (ha1 : isAbortResp h1 = true) :
    (parse_intent s h1).1 = Intent.abort ∧
    (parse_intent s h1).2.consecutiveStops = 1 ∧
    (isAbortResp h2 = true →
      (parse_intent (parse_intent s h1).2 h2).1 = Intent.forceAbort) ∧
    (isAbortResp h3 = false →
      (parse_intent (parse_intent s h1).2 h3).2.consecutiveStops = 0 ∧
      (isAbortResp h4 = true →
        (parse_intent (parse_intent (parse_intent s h1).2 h3).2 h4).1 =
          Intent.abort)) := by
  have e1 : parse_intent s h1 = (Intent.abort, { consecutiveStops := 1 }) := by
    simp [parse_intent, ha1, hs]
  refine ⟨by rw [e1], by rw [e1], ?_, ?_⟩
  · intro ha2
    rw [e1]
    simp [parse_intent, ha2]
  · intro hn3
    rw [e1]
    have e3 : (parse_intent { consecutiveStops := 1 } h3).2 =
        { consecutiveStops := 0 } := by
      simp [parse_intent, hn3]
    refine ⟨by rw [e3], ?_⟩
    intro ha4
    rw [e3]
    simp [parse_intent, ha4]

/-- Witness for the C6 theorem on a concrete response sequence: abort, stop,
reject, then 终止. -/
theorem parse_intent_multistage_abort_witness :
    initialGateState.consecutiveStops = 0 ∧
    isAbortResp { decision := "abort" } = true ∧
    isAbortResp { decision := "stop" } = true ∧
    isAbortResp { decision := "reject" } = false ∧
    isAbortResp { decision := "终止" } = true ∧
    ((parse_intent initialGateState { decision := "abort" }).1 = Intent.abort ∧
     (parse_intent initialGateState { decision := "abort" }).2.consecutiveStops = 1 ∧
     (isAbortResp { decision := "stop" } = true →
       (parse_intent (parse_intent initialGateState { decision := "abort" }).2
         { decision := "stop" }).1 = Intent.forceAbort) ∧
     (isAbortResp { decision := "reject" } = false →
       (parse_intent (parse_intent initialGateState { decision := "abort" }).2
         { decision := "reject" }).2.consecutiveStops = 0 ∧
       (isAbortResp { decision := "终止" } = true →
         (parse_intent
           (parse_intent (parse_intent initialGateState { decision := "abort" }).2
             { decision := "reject" }).2
           { decision := "终止" }).1 = Intent.abort))) :=
  ⟨rfl, rfl, rfl, rfl, rfl,
   parse_intent_multistage_abort initialGateState { decision := "abort" }
     { decision := "stop" } { decision := "reject" } { decision := "终止" }
     rfl rfl⟩

/-- C10: the keyword "done" belongs to both the abort and confirm-complete
keyword sets, and abort detection takes precedence in parse_intent — a
response whose normalised decision value is "done" (or a feedback response
whose normalised text is "done") resolves to abort or force_abort, never to
confirm_complete. -/
theorem parse_intent_done_prefers_abort (s : HumanGateState) (h : HumanResp)
    (hd : normVal h.decision = "done" ∨
      (normVal h.decision = "feedback" ∧ normVal h.text = "done")) :
    ("done" ∈ abortKeywords ∧ "done" ∈ confirmCompleteKeywords) ∧
    ((parse_intent s h).1 = Intent.abort ∨
     (parse_intent s h).1 = Intent.forceAbort) ∧
    (parse_intent s h).1 ≠ Intent.confirmComplete := by
  have habort : isAbortResp h = true := by
    rcases hd with h1 | ⟨h1, h2⟩
    · simp [isAbortResp, h1]
      decide
    · simp [isAbortResp, h1, h2]
      exact Or.inr (by decide)
  refine ⟨by decide, ?_, ?_⟩
  · by_cases h2 : s.consecutiveStops + 1 ≥ 2
    · right
      simp [parse_intent, habort, h2]
    · left
      simp [parse_intent, habort, h2]
  · by_cases h2 : s.consecutiveStops + 1 ≥ 2 <;>
      simp [parse_intent, habort, h2]

/-- Witness for the C10 theorem at the concrete response decision="DONE"
(normalised to "done"). -/
theorem parse_intent_done_prefers_abort_witness :
    normVal "DONE" = "done" ∧
    (("done" ∈ abortKeywords ∧ "done" ∈ confirmCompleteKeywords) ∧
     ((parse_intent initialGateState { decision := "DONE" }).1 = Intent.abort ∨
      (parse_intent initialGateState { decision := "DONE" }).1 = Intent.forceAbort) ∧
     (parse_intent initialGateState { decision := "DONE" }).1 ≠ Intent.confirmComplete) :=
  ⟨rfl, parse_intent_done_prefers_abort initialGateState { decision := "DONE" }
    (Or.inl rfl)⟩

/-- Counterexample to C7 as stated: after three consecutive rejections of
delete_file, should_escalate does return "approve", but the user policy
layer is overridden to "approve" (not to auto as the claim's §4.1 reading
asserts) and the consecutive-rejection counter is not reset — it still
reads 3 after the call. -/
theorem should_escalate_claim_cex :
    (should_escalate escalateScenarioStats emptyPolicy "delete_file").1 =
      some "approve" ∧
    (should_escalate escalateScenarioStats emptyPolicy
        "delete_file").2.2.consecutiveRejects "delete_file" = 3 ∧
    ¬((should_escalate escalateScenarioStats emptyPolicy
        "delete_file").2.2.consecutiveRejects "delete_file" = 0) ∧
    (should_escalate escalateScenarioStats emptyPolicy
        "delete_file").2.1.userOverrides.lookup "delete_file" = some "approve" ∧
    ¬((should_escalate escalateScenarioStats emptyPolicy
        "delete_file").2.1.userOverrides.lookup "delete_file" = some "auto") := by
  decide

/-- C7 as amended: when a tool has at least 3 consecutive human rejections,
should_escalate returns "approve" and overrides the user policy layer for
that tool to "approve" (the strictest level, not auto); the perception
statistics — including the consecutive-rejection counter — are left
unchanged by the call, and the counter is reset to 0 only by a later
approval recorded through record_approval. -/
theorem should_escalate_approve_override (stats : PerceptionStats)
    (ps : PolicyStore) (tool : String)
    (h : 3 ≤ stats.consecutiveRejects tool) :
    (should_escalate stats ps tool).1 = some "approve" ∧
    (should_escalate stats ps tool).2.1 =
      override_user_permission ps tool "approve" ∧
    resolve_user (should_escalate stats ps tool).2.1 tool =
      some ToolPermission.approve ∧
    (should_escalate stats ps tool).2.2 = stats ∧
    (should_escalate stats ps tool).2.2.consecutiveRejects tool =
      stats.consecutiveRejects tool ∧
    (∀ e : ℚ, (record_approval stats tool true e).consecutiveRejects tool = 0) := by
  have hge : stats.consecutiveRejects tool ≥ 3 := h
  refine ⟨?_, ?_, ?_, ?_, ?_, ?_⟩
  · simp [should_escalate, hge]
  · simp [should_escalate, hge]
  · simp [should_escalate, hge, resolve_user, override_user_permission,
      toolPermissionOfString]
  · simp [should_escalate, hge]
  · simp [should_escalate, hge]
  · intro e
    simp [record_approval]

/-- Witness for the amended C7 theorem at the concrete three-rejection
scenario. -/
theorem should_escalate_approve_override_witness :
    3 ≤ escalateScenarioStats.consecutiveRejects "delete_file" ∧
    ((should_escalate escalateScenarioStats emptyPolicy "delete_file").1 =
        some "approve" ∧
     (should_escalate escalateScenarioStats emptyPolicy "delete_file").2.1 =
        override_user_permission emptyPolicy "delete_file" "approve" ∧
     resolve_user (should_escalate escalateScenarioStats emptyPolicy
        "delete_file").2.1 "delete_file" = some ToolPermission.approve ∧
     (should_escalate escalateScenarioStats emptyPolicy "delete_file").2.2 =
        escalateScenarioStats ∧
     (should_escalate escalateScenarioStats emptyPolicy
        "delete_file").2.2.consecutiveRejects "delete_file" =
        escalateScenarioStats.consecutiveRejects "delete_file" ∧
     (∀ e : ℚ, (record_approval escalateScenarioStats "delete_file" true
        e).consecutiveRejects "delete_file" = 0)) :=
  ⟨by decide,
   should_escalate_approve_override escalateScenarioStats emptyPolicy
     "delete_file" (by decide)⟩

/-- When check_loop returns a verdict it is a needs_human verdict carrying the
mutated decision. -/
theorem check_loop_verdict_needs_human (w : List ℚ) (st : LoopState)
    (d : LLMDecision) (v : FirewallVerdict)
    (h : (check_loop w st d).1 = some v) : v.action = FWAction.needsHuman := by
  simp only [check_loop, Option.ite_none_right_eq_some] at h
  obtain ⟨-, hv⟩ := h
  exact (Option.some.inj hv) ▸ rfl

/-- The final verdict of evaluate is allow or needs_human according to the
human-required flag. -/
theorem verdictFor_action (d : LLMDecision) :
    (verdictFor d).action = FWAction.allow ∨
    (verdictFor d).action = FWAction.needsHuman := by
  unfold verdictFor
  by_cases h : d.humanRequired = true <;> simp [h]

/-- C9: for every decision and every perception state, the verdict of
FirewallEngine.evaluate has action allow or needs_human; no execution path —
the loop-detection branch included — produces the declared third action
block. -/
theorem evaluate_never_blocks (stats : PerceptionStats) (st : LoopState)
    (d : LLMDecision) :
    (evaluate stats st d).verdict.action = FWAction.allow ∨
    (evaluate stats st d).verdict.action = FWAction.needsHuman := by
  unfold evaluate
  simp only
  split
  · exact verdictFor_action _
  · split
    next v st2 heq =>
      right
      have h1 : (check_loop stats.confidenceWindow st
          (confidenceLayer stats.confidenceWindow (helpLayer d))).1 = some v := by
        rw [heq]
      exact check_loop_verdict_needs_human _ _ _ _ h1
    · exact verdictFor_action _

/-- Counterexample to C5 as stated: on the scenario with recorded confidences
0.2, 0.25, 0.1 and no other trigger, the circuit breaker fires and the
decision is mutated to human-required, but the confidence window is NOT
cleared — after evaluate it still holds the three recorded scores. -/
theorem confidence_breaker_window_not_cleared_cex :
    (evaluate cexBreakerStats initialLoopState {}).verdict.action =
      FWAction.needsHuman ∧
    ((evaluate cexBreakerStats initialLoopState
        {}).verdict.decision.map LLMDecision.humanRequired) = some true ∧
    (evaluate cexBreakerStats initialLoopState {}).statsAfter.confidenceWindow =
      [mkRat 1 5, mkRat 1 4, mkRat 1 10] ∧
    ¬((evaluate cexBreakerStats initialLoopState
        {}).statsAfter.confidenceWindow = []) := by
  decide

/-- C5 as amended: if the last 3 recorded confidence scores are all strictly
below the 0.3 threshold and the decision is not already human-required, not
task-complete, carries no help request and proposes no tool calls, then
evaluate mutates the decision to human_required=true with the
averaged-confidence explanation and returns a needs_human verdict; the
confidence window is left unchanged (it is not cleared). -/
theorem confidence_breaker_fires_window_kept (stats : PerceptionStats)
    (st : LoopState) (d : LLMDecision)
    (hlen : 3 ≤ stats.confidenceWindow.length)
    (hlow : ∀ c ∈ stats.confidenceWindow.drop (stats.confidenceWindow.length - 3),
      c < mkRat 3 10)
    (hhr : d.humanRequired = false) (htc : d.taskComplete = false)
    (hhelp : d.helpRequest = none) (hcalls : d.toolCalls = []) :
    (evaluate stats st d).verdict.action = FWAction.needsHuman ∧
    (evaluate stats st d).verdict.decision =
      some { d with humanRequired := true,
                    humanReason := some (lowConfReason
                      (qDiv (qSum (stats.confidenceWindow.drop
                        (stats.confidenceWindow.length - 3))) (mkRat 3 1))),
                    options := ["换一种方式继续", "提供更多信息", "终止"] } ∧
    (evaluate stats st d).statsAfter = stats ∧
    (evaluate stats st d).statsAfter.confidenceWindow =
      stats.confidenceWindow := by
  have h1 : helpLayer d = d := by
    unfold helpLayer
    rw [hhelp]
  have hall : (stats.confidenceWindow.drop
      (stats.confidenceWindow.length - 3)).all (fun c => decide (c < mkRat 3 10)) =
      true :=
    List.all_eq_true.mpr (fun c hc => decide_eq_true (hlow c hc))
  have h2 : confidenceLayer stats.confidenceWindow d =
      { d with humanRequired := true,
               humanReason := some (lowConfReason
                 (qDiv (qSum (stats.confidenceWindow.drop
                   (stats.confidenceWindow.length - 3))) (mkRat 3 1))),
               options := ["换一种方式继续", "提供更多信息", "终止"] } := by
    simp only [confidenceLayer]
    rw [if_pos ⟨hlen, hall, hhr, htc⟩]
  have hEval : evaluate stats st d =
      { verdict := verdictFor
          { d with humanRequired := true,
                   humanReason := some (lowConfReason
                     (qDiv (qSum (stats.confidenceWindow.drop
                       (stats.confidenceWindow.length - 3))) (mkRat 3 1))),
                   options := ["换一种方式继续", "提供更多信息", "终止"] },
        loop := st, statsAfter := stats } := by
    simp only [evaluate]
    rw [h1, h2]
    simp [hcalls]
  rw [hEval]
  refine ⟨?_, ?_, rfl, rfl⟩
  · simp [verdictFor]
  · simp [verdictFor]

/-- Witness for the amended C5 theorem at the concrete confidence scenario
0.2, 0.25, 0.1 with the default decision. -/
theorem confidence_breaker_fires_window_kept_witness :
    3 ≤ cexBreakerStats.confidenceWindow.length ∧
    (∀ c ∈ cexBreakerStats.confidenceWindow.drop
        (cexBreakerStats.confidenceWindow.length - 3), c < mkRat 3 10) ∧
    ((evaluate cexBreakerStats initialLoopState {}).verdict.action =
        FWAction.needsHuman ∧
     (evaluate cexBreakerStats initialLoopState {}).verdict.decision =
       some { ({} : LLMDecision) with
              humanRequired := true,
              humanReason := some (lowConfReason
                (qDiv (qSum (cexBreakerStats.confidenceWindow.drop
                  (cexBreakerStats.confidenceWindow.length - 3))) (mkRat 3 1))),
              options := ["换一种方式继续", "提供更多信息", "终止"] } ∧
     (evaluate cexBreakerStats initialLoopState {}).statsAfter =
        cexBreakerStats ∧
     (evaluate cexBreakerStats initialLoopState {}).statsAfter.confidenceWindow =
        cexBreakerStats.confidenceWindow) :=
  ⟨by decide, by decide,
   confidence_breaker_fires_window_kept cexBreakerStats initialLoopState {}
     (by decide) (by decide) rfl rfl rfl rfl⟩

/-- The reducible addition agrees with the standard rational addition. -/
theorem qAdd_eq_add (a b : ℚ) : qAdd a b = a + b := by
  unfold qAdd
  have had : ((a.den : ℚ)) ≠ 0 := by exact_mod_cast a.den_nz
  have hbd : ((b.den : ℚ)) ≠ 0 := by exact_mod_cast b.den_nz
  conv_rhs => rw [← Rat.num_div_den a, ← Rat.num_div_den b]
  rw [div_add_div _ _ had hbd, Rat.mkRat_eq_div]
  push_cast
  ring_nf

/-- The reducible multiplication agrees with the standard rational
multiplication. -/
theorem qMul_eq_mul (a b : ℚ) : qMul a b = a * b := by
  unfold qMul
  conv_rhs => rw [← Rat.num_div_den a, ← Rat.num_div_den b]
  rw [div_mul_div_comm, Rat.mkRat_eq_div]
  push_cast
  ring_nf

/-- The reducible division agrees with the standard rational division
(both give 0 on a zero divisor). -/
theorem qDiv_eq_div (a b : ℚ) : qDiv a b = a / b := by
  have had : ((a.den : ℚ)) ≠ 0 := by exact_mod_cast a.den_nz
  have hbd : ((b.den : ℚ)) ≠ 0 := by exact_mod_cast b.den_nz
  by_cases hbz : b.num = 0
  · have hb0 : b = 0 := by
      rw [← Rat.num_div_den b, hbz]
      simp
    unfold qDiv
    rw [hbz]
    simp [hb0, Rat.mkRat_eq_div]
  · rcases lt_or_le b.num 0 with hneg | hpos
    · have hbn : ((b.num : ℚ)) ≠ 0 := by exact_mod_cast hbz
      have hc : (((-b.num).toNat : ℕ) : ℚ) = -((b.num : ℤ) : ℚ) := by
        exact_mod_cast Int.toNat_of_nonneg (by omega : (0:ℤ) ≤ -b.num)
      unfold qDiv
      rw [if_neg (by omega), Rat.mkRat_eq_div]
      push_cast [hc]
      conv_rhs => rw [← Rat.num_div_den a, ← Rat.num_div_den b]
      field_simp
    · have hbn : ((b.num : ℚ)) ≠ 0 := by exact_mod_cast hbz
      have hc : ((b.num.toNat : ℕ) : ℚ) = ((b.num : ℤ) : ℚ) := by
        exact_mod_cast Int.toNat_of_nonneg hpos
      unfold qDiv
      rw [if_pos hpos, Rat.mkRat_eq_div]
      push_cast [hc]
      conv_rhs => rw [← Rat.num_div_den a, ← Rat.num_div_den b]
      field_simp

/-- The reducible sum agrees with List.sum. -/
theorem qSum_eq_sum (l : List ℚ) : qSum l = l.sum := by
  have hz : (mkRat 0 1) = 0 := by norm_num [Rat.mkRat_eq_div]
  have key : ∀ (m : List ℚ) (z : ℚ), m.foldl qAdd z = z + m.sum := by
    intro m
    induction m with
    | nil => intro z; simp
    | cons x xs ih =>
        intro z
        rw [List.foldl_cons, ih, qAdd_eq_add, List.sum_cons]
        ring
  unfold qSum
  rw [key, hz, zero_add]

/-- The embedded window average agrees with the source's
`sum(conf_window) / len(conf_window)` with the 0.5 default on an empty
window. -/
theorem avgOrHalf_eq (w : List ℚ) :
    avgOrHalf w = if w.isEmpty then 1/2 else w.sum / w.length := by
  unfold avgOrHalf
  by_cases h : w.isEmpty
  · rw [if_pos h, if_pos h]
    norm_num [Rat.mkRat_eq_div]
  · rw [if_neg h, if_neg h, qDiv_eq_div, qSum_eq_sum]
    congr 1
    norm_num [Rat.mkRat_eq_div]

/-- Replaying a confidence history through record_confidence appends it to
the current window as long as the combined length stays within the sliding
window size 10. -/
theorem replay_confidence_window (l : List ℚ) : ∀ (st : PerceptionStats),
    st.confidenceWindow.length + l.length ≤ 10 →
    (l.foldl record_confidence st).confidenceWindow =
      st.confidenceWindow ++ l := by
  induction l with
  | nil => intro st _; simp
  | cons c t ih =>
      intro st h
      have hlen : (st.confidenceWindow ++ [c]).length ≤ 10 := by
        simp only [List.length_append, List.length_cons, List.length_nil] at h ⊢
        omega
      have h1 : (record_confidence st c).confidenceWindow =
          st.confidenceWindow ++ [c] := by
        simp only [record_confidence, trimWindow]
        rw [if_neg (by omega)]
      have h2 : (record_confidence st c).confidenceWindow.length + t.length ≤ 10 := by
        rw [h1]
        simp only [List.length_append, List.length_cons, List.length_nil] at h ⊢
        omega
      rw [List.foldl_cons, ih _ h2, h1]
      simp

/-- C8 as amended: saving a checkpoint and restoring it into a fresh service
reproduces the loop-detection signature and repeat counters, the confidence
window (whose length never exceeds the sliding-window size 10), the
tool-output cache and the HumanGate consecutive-stop counter; and the second
save equals the first checkpoint provided the caller re-supplies the
orchestration arguments — in particular the pending requests, which
_restore_checkpoint does not hand back. -/
theorem checkpoint_round_trip (loop : LoopState) (bus : PerceptionBus)
    (gate : HumanGateState) (elapsed : ℚ) (announced : Option Int)
    (pH : Option PendingHitl) (pT : Option PendingToolConfirm)
    (step : Nat) (reason : String) (wrap : Bool)
    (hw : bus.stats.confidenceWindow.length ≤ 10) :
    (restore_checkpoint (save_checkpoint loop bus gate elapsed announced
        pH pT step reason wrap) emptyBus).1 = loop ∧
    (restore_checkpoint (save_checkpoint loop bus gate elapsed announced
        pH pT step reason wrap) emptyBus).2.1.stats.confidenceWindow =
      bus.stats.confidenceWindow ∧
    (restore_checkpoint (save_checkpoint loop bus gate elapsed announced
        pH pT step reason wrap) emptyBus).2.1.lastToolOutputs =
      bus.lastToolOutputs ∧
    (restore_checkpoint (save_checkpoint loop bus gate elapsed announced
        pH pT step reason wrap) emptyBus).2.2.1 = gate ∧
    save_checkpoint
      (restore_checkpoint (save_checkpoint loop bus gate elapsed announced
        pH pT step reason wrap) emptyBus).1
      (restore_checkpoint (save_checkpoint loop bus gate elapsed announced
        pH pT step reason wrap) emptyBus).2.1
      (restore_checkpoint (save_checkpoint loop bus gate elapsed announced
        pH pT step reason wrap) emptyBus).2.2.1
      (restore_checkpoint (save_checkpoint loop bus gate elapsed announced
        pH pT step reason wrap) emptyBus).2.2.2.elapsedSecondsAtPause
      (restore_checkpoint (save_checkpoint loop bus gate elapsed announced
        pH pT step reason wrap) emptyBus).2.2.2.announcedSubtaskId
      pH pT step
      (restore_checkpoint (save_checkpoint loop bus gate elapsed announced
        pH pT step reason wrap) emptyBus).2.2.2.pauseReason
      (restore_checkpoint (save_checkpoint loop bus gate elapsed announced
        pH pT step reason wrap) emptyBus).2.2.2.wrapUpInjected =
      save_checkpoint loop bus gate elapsed announced pH pT step reason
        wrap := by
  have hwin : ((bus.stats.confidenceWindow).foldl record_confidence
      emptyStats).confidenceWindow = bus.stats.confidenceWindow := by
    have h0 : emptyStats.confidenceWindow.length +
        bus.stats.confidenceWindow.length ≤ 10 := by
      simpa [emptyStats] using hw
    simpa [emptyStats] using
      replay_confidence_window bus.stats.confidenceWindow emptyStats h0
  refine ⟨rfl, ?_, rfl, rfl, ?_⟩
  · exact hwin
  · simp only [save_checkpoint, restore_checkpoint, emptyBus]
    rw [hwin]

/-- Witness for the amended C8 theorem on a concrete mid-run state with a
pending HITL request. -/
theorem checkpoint_round_trip_witness :
    rtBus.stats.confidenceWindow.length ≤ 10 ∧
    ((restore_checkpoint (save_checkpoint rtLoop rtBus rtGate (mkRat 7 2)
        (some 4) (some { reason := "r", options := ["a"] }) none 3
        "hitl_wait" true) emptyBus).1 = rtLoop ∧
     (restore_checkpoint (save_checkpoint rtLoop rtBus rtGate (mkRat 7 2)
        (some 4) (some { reason := "r", options := ["a"] }) none 3
        "hitl_wait" true) emptyBus).2.1.stats.confidenceWindow =
       rtBus.stats.confidenceWindow ∧
     (restore_checkpoint (save_checkpoint rtLoop rtBus rtGate (mkRat 7 2)
        (some 4) (some { reason := "r", options := ["a"] }) none 3
        "hitl_wait" true) emptyBus).2.1.lastToolOutputs =
       rtBus.lastToolOutputs ∧
     (restore_checkpoint (save_checkpoint rtLoop rtBus rtGate (mkRat 7 2)
        (some 4) (some { reason := "r", options := ["a"] }) none 3
        "hitl_wait" true) emptyBus).2.2.1 = rtGate ∧
     save_checkpoint
       (restore_checkpoint (save_checkpoint rtLoop rtBus rtGate (mkRat 7 2)
         (some 4) (some { reason := "r", options := ["a"] }) none 3
         "hitl_wait" true) emptyBus).1
       (restore_checkpoint (save_checkpoint rtLoop rtBus rtGate (mkRat 7 2)
         (some 4) (some { reason := "r", options := ["a"] }) none 3
         "hitl_wait" true) emptyBus).2.1
       (restore_checkpoint (save_checkpoint rtLoop rtBus rtGate (mkRat 7 2)
         (some 4) (some { reason := "r", options := ["a"] }) none 3
         "hitl_wait" true) emptyBus).2.2.1
       (restore_checkpoint (save_checkpoint rtLoop rtBus rtGate (mkRat 7 2)
         (some 4) (some { reason := "r", options := ["a"] }) none 3
         "hitl_wait" true) emptyBus).2.2.2.elapsedSecondsAtPause
       (restore_checkpoint (save_checkpoint rtLoop rtBus rtGate (mkRat 7 2)
         (some 4) (some { reason := "r", options := ["a"] }) none 3
         "hitl_wait" true) emptyBus).2.2.2.announcedSubtaskId
       (some { reason := "r", options := ["a"] }) none 3
       (restore_checkpoint (save_checkpoint rtLoop rtBus rtGate (mkRat 7 2)
         (some 4) (some { reason := "r", options := ["a"] }) none 3
         "hitl_wait" true) emptyBus).2.2.2.pauseReason
       (restore_checkpoint (save_checkpoint rtLoop rtBus rtGate (mkRat 7 2)
         (some 4) (some { reason := "r", options := ["a"] }) none 3
         "hitl_wait" true) emptyBus).2.2.2.wrapUpInjected =
       save_checkpoint rtLoop rtBus rtGate (mkRat 7 2) (some 4)
         (some { reason := "r", options := ["a"] }) none 3 "hitl_wait"
         true) :=
  ⟨by decide,
   checkpoint_round_trip rtLoop rtBus rtGate (mkRat 7 2) (some 4)
     (some { reason := "r", options := ["a"] }) none 3 "hitl_wait" true
     (by decide)⟩

/-- Counterexample to C8 as stated: a checkpoint written while a HITL
request is pending stores the pending request, but _restore_checkpoint does
not hand it back, so the next save — passing exactly the values the restore
flow makes available — drops it: save→restore→save is not idempotent and
restoring does not reproduce the pending-request state. -/
theorem checkpoint_pending_dropped_cex :
    cexCheckpoint.pendingHitl =
      some { reason := "需要确认下一步操作", options := ["继续", "终止"] } ∧
    cexResaved.pendingHitl = none ∧
    cexResaved ≠ cexCheckpoint := by
  decide

/-- The exact-repeat reason string assembled by _check_loop. -/
theorem loopReasonExact :
    "Loop detected (" ++ "exact args" ++ ")" = "Loop detected (exact args)" := rfl

/-- The same-tool-name reason string assembled by _check_loop. -/
theorem loopReasonName :
    "Loop detected (" ++ "same tool" ++ ")" = "Loop detected (same tool)" := rfl

/-- C4: when the same (tool, sorted-args) signature is proposed on
consecutive steps, loop detection trips after the 2nd exact repeat (3rd
proposal) if the window average confidence is at least 0.5, and already after
the 1st repeat (2nd proposal) below 0.5; for repeats of the tool-name set
with fresh args it trips after the 3rd name repeat (4th proposal), tightened
to the 2nd (3rd proposal) at low confidence. On a trip the verdict is
needs_human carrying the decision with its tool calls cleared and
human_required forced, and the repeat counters keep their incremented
values. -/
theorem loop_detection_dynamic_thresholds :
    (∀ (w : List ℚ) (d : LLMDecision), d.toolCalls ≠ [] →
      (avgOrHalf w ≥ mkRat 1 2 →
        loopTrip w initialLoopState d = none ∧
        loopTrip w (loopStep w initialLoopState d) d = none ∧
        loopTrip w (loopStep w (loopStep w initialLoopState d) d) d =
          some { action := FWAction.needsHuman,
                 reason := "Loop detected (exact args)",
                 needsPreview := false,
                 decision := some (loopMutate d) } ∧
        (loopMutate d).toolCalls = [] ∧
        (loopMutate d).humanRequired = true ∧
        (loopStep w (loopStep w (loopStep w initialLoopState d) d) d).repeatCount = 2 ∧
        (loopStep w (loopStep w (loopStep w initialLoopState d) d) d).nameRepeatCount = 2) ∧
      (avgOrHalf w < mkRat 1 2 →
        loopTrip w initialLoopState d = none ∧
        loopTrip w (loopStep w initialLoopState d) d =
          some { action := FWAction.needsHuman,
                 reason := "Loop detected (exact args)",
                 needsPreview := false,
                 decision := some (loopMutate d) } ∧
        (loopStep w (loopStep w initialLoopState d) d).repeatCount = 1 ∧
        (loopStep w (loopStep w initialLoopState d) d).nameRepeatCount = 1)) ∧
    (∀ (w : List ℚ) (d1 d2 d3 d4 : LLMDecision),
      d1.toolCalls ≠ [] → d2.toolCalls ≠ [] → d3.toolCalls ≠ [] →
      d4.toolCalls ≠ [] →
      nameSig d1.toolCalls = nameSig d2.toolCalls →
      nameSig d2.toolCalls = nameSig d3.toolCalls →
      nameSig d3.toolCalls = nameSig d4.toolCalls →
      toolSig d1.toolCalls ≠ toolSig d2.toolCalls →
      toolSig d2.toolCalls ≠ toolSig d3.toolCalls →
      toolSig d3.toolCalls ≠ toolSig d4.toolCalls →
      (avgOrHalf w ≥ mkRat 1 2 →
        loopTrip w initialLoopState d1 = none ∧
        loopTrip w (loopStep w initialLoopState d1) d2 = none ∧
        loopTrip w (loopStep w (loopStep w initialLoopState d1) d2) d3 = none ∧
        loopTrip w (loopStep w (loopStep w (loopStep w initialLoopState d1) d2) d3) d4 =
          some { action := FWAction.needsHuman,
                 reason := "Loop detected (same tool)",
                 needsPreview := false,
                 decision := some (loopMutate d4) } ∧
        (loopStep w (loopStep w (loopStep w (loopStep w initialLoopState d1) d2) d3) d4).nameRepeatCount = 3) ∧
      (avgOrHalf w < mkRat 1 2 →
        loopTrip w initialLoopState d1 = none ∧
        loopTrip w (loopStep w initialLoopState d1) d2 = none ∧
        loopTrip w (loopStep w (loopStep w initialLoopState d1) d2) d3 =
          some { action := FWAction.needsHuman,
                 reason := "Loop detected (same tool)",
                 needsPreview := false,
                 decision := some (loopMutate d3) } ∧
        (loopStep w (loopStep w (loopStep w initialLoopState d1) d2) d3).nameRepeatCount = 2)) := by
  constructor
  · intro w d _
    have hs1 : loopStep w initialLoopState d =
        { lastToolSig := some (toolSig d.toolCalls), repeatCount := 0,
          lastToolNames := some (nameSig d.toolCalls), nameRepeatCount := 0 } := by
      simp [loopStep, check_loop, initialLoopState]
    constructor
    · intro hav
      have ht1 : loopTrip w initialLoopState d = none := by
        simp [loopTrip, check_loop, initialLoopState, hav]
      have hs2 : loopStep w
          { lastToolSig := some (toolSig d.toolCalls), repeatCount := 0,
            lastToolNames := some (nameSig d.toolCalls), nameRepeatCount := 0 } d =
          { lastToolSig := some (toolSig d.toolCalls), repeatCount := 1,
            lastToolNames := some (nameSig d.toolCalls), nameRepeatCount := 1 } := by
        simp [loopStep, check_loop]
      have ht2 : loopTrip w
          { lastToolSig := some (toolSig d.toolCalls), repeatCount := 0,
            lastToolNames := some (nameSig d.toolCalls), nameRepeatCount := 0 } d =
          none := by
        simp [loopTrip, check_loop, hav]
      have ht3 : loopTrip w
          { lastToolSig := some (toolSig d.toolCalls), repeatCount := 1,
            lastToolNames := some (nameSig d.toolCalls), nameRepeatCount := 1 } d =
          some { action := FWAction.needsHuman,
                 reason := "Loop detected (exact args)",
                 needsPreview := false,
                 decision := some (loopMutate d) } := by
        simp [loopTrip, check_loop, hav, loopReasonExact]
      have hs3 : loopStep w
          { lastToolSig := some (toolSig d.toolCalls), repeatCount := 1,
            lastToolNames := some (nameSig d.toolCalls), nameRepeatCount := 1 } d =
          { lastToolSig := some (toolSig d.toolCalls), repeatCount := 2,
            lastToolNames := some (nameSig d.toolCalls), nameRepeatCount := 2 } := by
        simp [loopStep, check_loop]
      refine ⟨ht1, ?_, ?_, rfl, rfl, ?_, ?_⟩
      · rw [hs1]; exact ht2
      · rw [hs1, hs2]; exact ht3
      · rw [hs1, hs2, hs3]
      · rw [hs1, hs2, hs3]
    · intro hlow
      have hav : ¬(avgOrHalf w ≥ mkRat 1 2) := not_le.mpr hlow
      have ht1 : loopTrip w initialLoopState d = none := by
        simp [loopTrip, check_loop, initialLoopState, hav]
      have hs2 : loopStep w
          { lastToolSig := some (toolSig d.toolCalls), repeatCount := 0,
            lastToolNames := some (nameSig d.toolCalls), nameRepeatCount := 0 } d =
          { lastToolSig := some (toolSig d.toolCalls), repeatCount := 1,
            lastToolNames := some (nameSig d.toolCalls), nameRepeatCount := 1 } := by
        simp [loopStep, check_loop]
      have ht2 : loopTrip w
          { lastToolSig := some (toolSig d.toolCalls), repeatCount := 0,
            lastToolNames := some (nameSig d.toolCalls), nameRepeatCount := 0 } d =
          some { action := FWAction.needsHuman,
                 reason := "Loop detected (exact args)",
                 needsPreview := false,
                 decision := some (loopMutate d) } := by
        simp [loopTrip, check_loop, hav, loopReasonExact]
      refine ⟨ht1, ?_, ?_, ?_⟩
      · rw [hs1]; exact ht2
      · rw [hs1, hs2]
      · rw [hs1, hs2]
  · intro w d1 d2 d3 d4 _ _ _ _ hn12 hn23 hn34 hsg12 hsg23 hsg34
    have hs1 : loopStep w initialLoopState d1 =
        { lastToolSig := some (toolSig d1.toolCalls), repeatCount := 0,
          lastToolNames := some (nameSig d1.toolCalls), nameRepeatCount := 0 } := by
      simp [loopStep, check_loop, initialLoopState]
    have hs2 : loopStep w
        { lastToolSig := some (toolSig d1.toolCalls), repeatCount := 0,
          lastToolNames := some (nameSig d1.toolCalls), nameRepeatCount := 0 } d2 =
        { lastToolSig := some (toolSig d2.toolCalls), repeatCount := 0,
          lastToolNames := some (nameSig d2.toolCalls), nameRepeatCount := 1 } := by
      simp [loopStep, check_loop, hsg12, hn12]
    have hs3 : loopStep w
        { lastToolSig := some (toolSig d2.toolCalls), repeatCount := 0,
          lastToolNames := some (nameSig d2.toolCalls), nameRepeatCount := 1 } d3 =
        { lastToolSig := some (toolSig d3.toolCalls), repeatCount := 0,
          lastToolNames := some (nameSig d3.toolCalls), nameRepeatCount := 2 } := by
      simp [loopStep, check_loop, hsg23, hn23]
    constructor
    · intro hav
      have ht1 : loopTrip w initialLoopState d1 = none := by
        simp [loopTrip, check_loop, initialLoopState, hav]
      have ht2 : loopTrip w
          { lastToolSig := some (toolSig d1.toolCalls), repeatCount := 0,
            lastToolNames := some (nameSig d1.toolCalls), nameRepeatCount := 0 } d2 =
          none := by
        simp [loopTrip, check_loop, hav, hsg12, hn12]
      have ht3 : loopTrip w
          { lastToolSig := some (toolSig d2.toolCalls), repeatCount := 0,
            lastToolNames := some (nameSig d2.toolCalls), nameRepeatCount := 1 } d3 =
          none := by
        simp [loopTrip, check_loop, hav, hsg23, hn23]
      have ht4 : loopTrip w
          { lastToolSig := some (toolSig d3.toolCalls), repeatCount := 0,
            lastToolNames := some (nameSig d3.toolCalls), nameRepeatCount := 2 } d4 =
          some { action := FWAction.needsHuman,
                 reason := "Loop detected (same tool)",
                 needsPreview := false,
                 decision := some (loopMutate d4) } := by
        simp [loopTrip, check_loop, hav, hsg34, hn34, loopReasonName]
      have hs4 : loopStep w
          { lastToolSig := some (toolSig d3.toolCalls), repeatCount := 0,
            lastToolNames := some (nameSig d3.toolCalls), nameRepeatCount := 2 } d4 =
          { lastToolSig := some (toolSig d4.toolCalls), repeatCount := 0,
            lastToolNames := some (nameSig d4.toolCalls), nameRepeatCount := 3 } := by
        simp [loopStep, check_loop, hsg34, hn34]
      refine ⟨ht1, ?_, ?_, ?_, ?_⟩
      · rw [hs1]; exact ht2
      · rw [hs1, hs2]; exact ht3
      · rw [hs1, hs2, hs3]; exact ht4
      · rw [hs1, hs2, hs3, hs4]
    · intro hlow
      have hav : ¬(avgOrHalf w ≥ mkRat 1 2) := not_le.mpr hlow
      have ht1 : loopTrip w initialLoopState d1 = none := by
        simp [loopTrip, check_loop, initialLoopState, hav]
      have ht2 : loopTrip w
          { lastToolSig := some (toolSig d1.toolCalls), repeatCount := 0,
            lastToolNames := some (nameSig d1.toolCalls), nameRepeatCount := 0 } d2 =
          none := by
        simp [loopTrip, check_loop, hav, hsg12, hn12]
      have ht3 : loopTrip w
          { lastToolSig := some (toolSig d2.toolCalls), repeatCount := 0,
            lastToolNames := some (nameSig d2.toolCalls), nameRepeatCount := 1 } d3 =
          some { action := FWAction.needsHuman,
                 reason := "Loop detected (same tool)",
                 needsPreview := false,
                 decision := some (loopMutate d3) } := by
        simp [loopTrip, check_loop, hav, hsg23, hn23, loopReasonName]
      refine ⟨ht1, ?_, ?_, ?_⟩
      · rw [hs1]; exact ht2
      · rw [hs1, hs2]; exact ht3
      · rw [hs1, hs2, hs3]

/-- Witness for the C4 theorem: the exact-repeat arm at a concrete repeated
file_read call, and the name-repeat arm at four file_read calls with
pairwise different arguments. -/
theorem loop_detection_dynamic_thresholds_witness :
    loopexD.toolCalls ≠ [] ∧
    ((avgOrHalf [] ≥ mkRat 1 2 →
        loopTrip [] initialLoopState loopexD = none ∧
        loopTrip [] (loopStep [] initialLoopState loopexD) loopexD = none ∧
        loopTrip [] (loopStep [] (loopStep [] initialLoopState loopexD) loopexD) loopexD =
          some { action := FWAction.needsHuman,
                 reason := "Loop detected (exact args)",
                 needsPreview := false,
                 decision := some (loopMutate loopexD) } ∧
        (loopMutate loopexD).toolCalls = [] ∧
        (loopMutate loopexD).humanRequired = true ∧
        (loopStep [] (loopStep [] (loopStep [] initialLoopState loopexD) loopexD) loopexD).repeatCount = 2 ∧
        (loopStep [] (loopStep [] (loopStep [] initialLoopState loopexD) loopexD) loopexD).nameRepeatCount = 2) ∧
     (avgOrHalf [] < mkRat 1 2 →
        loopTrip [] initialLoopState loopexD = none ∧
        loopTrip [] (loopStep [] initialLoopState loopexD) loopexD =
          some { action := FWAction.needsHuman,
                 reason := "Loop detected (exact args)",
                 needsPreview := false,
                 decision := some (loopMutate loopexD) } ∧
        (loopStep [] (loopStep [] initialLoopState loopexD) loopexD).repeatCount = 1 ∧
        (loopStep [] (loopStep [] initialLoopState loopexD) loopexD).nameRepeatCount = 1)) ∧
    nameSig (loopexArg "1").toolCalls = nameSig (loopexArg "2").toolCalls ∧
    toolSig (loopexArg "1").toolCalls ≠ toolSig (loopexArg "2").toolCalls ∧
    ((avgOrHalf [] ≥ mkRat 1 2 →
        loopTrip [] initialLoopState (loopexArg "1") = none ∧
        loopTrip [] (loopStep [] initialLoopState (loopexArg "1")) (loopexArg "2") = none ∧
        loopTrip [] (loopStep [] (loopStep [] initialLoopState (loopexArg "1")) (loopexArg "2")) (loopexArg "3") = none ∧
        loopTrip [] (loopStep [] (loopStep [] (loopStep [] initialLoopState (loopexArg "1")) (loopexArg "2")) (loopexArg "3")) (loopexArg "4") =
          some { action := FWAction.needsHuman,
                 reason := "Loop detected (same tool)",
                 needsPreview := false,
                 decision := some (loopMutate (loopexArg "4")) } ∧
        (loopStep [] (loopStep [] (loopStep [] (loopStep [] initialLoopState (loopexArg "1")) (loopexArg "2")) (loopexArg "3")) (loopexArg "4")).nameRepeatCount = 3) ∧
     (avgOrHalf [] < mkRat 1 2 →
        loopTrip [] initialLoopState (loopexArg "1") = none ∧
        loopTrip [] (loopStep [] initialLoopState (loopexArg "1")) (loopexArg "2") = none ∧
        loopTrip [] (loopStep [] (loopStep [] initialLoopState (loopexArg "1")) (loopexArg "2")) (loopexArg "3") =
          some { action := FWAction.needsHuman,
                 reason := "Loop detected (same tool)",
                 needsPreview := false,
                 decision := some (loopMutate (loopexArg "3")) } ∧
        (loopStep [] (loopStep [] (loopStep [] initialLoopState (loopexArg "1")) (loopexArg "2")) (loopexArg "3")).nameRepeatCount = 2)) :=
  ⟨by decide,
   loop_detection_dynamic_thresholds.1 [] loopexD (by decide),
   by decide,
   by decide,
   loop_detection_dynamic_thresholds.2 [] (loopexArg "1") (loopexArg "2")
     (loopexArg "3") (loopexArg "4") (by decide) (by decide) (by decide)
     (by decide) (by decide) (by decide) (by decide) (by decide) (by decide)
     (by decide)⟩
